import Mathlib

/-!
Verification of the viewport/camera subsystem of FaceFindrLite (src/main.py)
against its natural-language specification.

The Python source is shallowly embedded: Python floats are modelled as exact
rationals (every concrete value used in a counterexample below is exactly
representable as an IEEE-754 double, and the arithmetic on it is exact, so the
rational model and the float execution agree at those points); Python ints are
modelled as Lean integers; Python list slices `l[a:b]` (with non-negative
bounds, as in the source) clamp to the list, which is `(l.take b).drop a`.
-/

namespace FaceFindr

/-- Python list slice `l[a:b]` for non-negative bounds `a`, `b`:
elements `a, ..., b-1`, clamped to the length of the list. -/
def pySlice (l : List Char) (a b : Nat) : List Char := (l.take b).drop a

/-- Python `int()` applied to a float: truncation toward zero, i.e. floor for
non-negative values and ceiling for negative ones. -/
def pyInt (q : ℚ) : ℤ := if 0 ≤ q then ⌊q⌋ else ⌈q⌉

/-- Python `%` on an integer left operand and a positive integer modulus:
floor modulo, whose result always lies in `[0, m)` — Euclidean `emod`. -/
def pyMod (a : ℤ) (m : Nat) : ℤ := Int.emod a m

/-- SCROLL_SPEED = 0.2 (src/main.py line 9), modelled as the exact rational. -/
def SCROLL_SPEED : ℚ := 1 / 5

/-- Line 109: `visible_start_x = int(scene_offset) % scene_width`. -/
def visible_start_x (scene_offset : ℚ) (scene_width : Nat) : ℤ :=
  pyMod (pyInt scene_offset) scene_width

/-- Line 110: `visible_start_y = int(vertical_offset) % scene_height`. -/
def visible_start_y (vertical_offset : ℚ) (scene_height : Nat) : ℤ :=
  pyMod (pyInt vertical_offset) scene_height

/-- The anchor the spec mandates (§4.3 step 1 and §9): a true floor of the
float offset, then the non-negative modulo. -/
def spec_start_x (offset : ℚ) (scene_width : Nat) : ℤ :=
  pyMod ⌊offset⌋ scene_width

/-- Lines 114-120: extraction of one viewport row of width `max_x` from a
scene row of width `scene_width`, anchored at `start_x`, wrapping (at most
once) past the right edge.  The branch condition is the strict
`visible_end_x < scene_width` of line 115. -/
def extractLine (row : List Char) (scene_width start_x max_x : Nat) : List Char :=
  let visible_end_x := start_x + max_x
  if visible_end_x < scene_width then
    pySlice row start_x visible_end_x
  else
    pySlice row start_x scene_width ++ pySlice row 0 (visible_end_x - scene_width)

/-- Lines 71-79: `generate_scene` builds a `height × width` grid of spaces and
then sets `scene[10][i] = '#'` for `i` in `range(5, 15)` (the source assumes
`height ≥ 11` and `width ≥ 15`; it raises IndexError otherwise, and it is only
called with such dimensions). -/
def generate_scene (width height : Nat) : List (List Char) :=
  let scene := List.replicate height (List.replicate width ' ')
  (List.range' 5 10).foldl
    (fun sc i => sc.set 10 ((sc.getD 10 []).set i '#')) scene

/-- CameraState: the two unbounded stored offsets (lines 12-13). -/
structure CameraState where
  scene_offset : ℚ
  vertical_offset : ℚ
  deriving DecidableEq, Repr

/-- Lines 104-106: camera update from the drained deltas `(dx, dy)`:
`scene_offset -= dx * SCROLL_SPEED`, `vertical_offset += dy * SCROLL_SPEED`. -/
def advanceCamera (c : CameraState) (dx dy : ℤ) : CameraState :=
  { scene_offset := c.scene_offset - dx * SCROLL_SPEED
    vertical_offset := c.vertical_offset + dy * SCROLL_SPEED }

/-- Lines 100-110 of one render-loop iteration, restricted to the camera:
drain the buffered deltas, advance the stored offsets, then compute the
wrapped anchors.  Returns the new stored camera state together with the
sampled `(visible_start_x, visible_start_y)` pair; the modulo appears only in
the second component, never in the stored state. -/
def frameCamera (c : CameraState) (buf : ℤ × ℤ) (scene_width scene_height : Nat) :
    CameraState × (ℤ × ℤ) :=
  let cNew := advanceCamera c buf.1 buf.2
  (cNew, (visible_start_x cNew.scene_offset scene_width,
          visible_start_y cNew.vertical_offset scene_height))

/-- MotionSampler shared state, with bookkeeping for reasoning about
interleavings.  `bufx`/`bufy` are `mouse_delta_buffer[0]`/`[1]`; `tmpx`/`tmpy`
are the render thread's locals `dx, dy` of line 101; `consumedx`/`consumedy`
sum the values returned by completed drains; `appliedx`/`appliedy` sum every
delta ever applied by the callback (x raw, y negated, lines 36-37). -/
structure SamplerState where
  bufx : ℤ
  bufy : ℤ
  tmpx : ℤ
  tmpy : ℤ
  consumedx : ℤ
  consumedy : ℤ
  appliedx : ℤ
  appliedy : ℤ
  deriving DecidableEq, Repr

/-- The atomic primitive steps the two threads interleave.  In the code the
drain is not one primitive: it is the read of line 101 followed by the reset
of line 102, so another thread's step may run between them.  `accumulate`
(lines 36-37) is granted atomicity as a single step here — the update loss
shown below occurs even under that generous assumption. -/
inductive SamplerOp where
  | accumulate (dx dy : ℤ)
  | drainRead
  | drainReset
  deriving DecidableEq, Repr

/-- Effect of one primitive step on the shared sampler state. -/
def samplerStep (s : SamplerState) : SamplerOp → SamplerState
  | SamplerOp.accumulate dx dy =>
      { s with bufx := s.bufx + dx, bufy := s.bufy - dy,
               appliedx := s.appliedx + dx, appliedy := s.appliedy - dy }
  | SamplerOp.drainRead => { s with tmpx := s.bufx, tmpy := s.bufy }
  | SamplerOp.drainReset =>
      { s with bufx := 0, bufy := 0,
               consumedx := s.consumedx + s.tmpx,
               consumedy := s.consumedy + s.tmpy }

/-- Execution of an interleaving from the initial all-zero state. -/
def samplerRun (ops : List SamplerOp) : SamplerState :=
  ops.foldl samplerStep ⟨0, 0, 0, 0, 0, 0, 0, 0⟩

/-- Lines 52-62: `start_mouse_listener` raises
`Exception("Unable to create event tap.")` when `CGEventTapCreate` returns a
null tap; otherwise it installs the tap and enters the run loop. -/
def start_mouse_listener (tapCreated : Bool) : Except String Unit :=
  if tapCreated then Except.ok () else Except.error "Unable to create event tap."

/-- Observable outcome of process startup (lines 150-159). -/
structure ProcessOutcome where
  processAborted : Bool
  renderLoopRuns : Bool
  listenerAlive : Bool
  deriving DecidableEq, Repr

/-- Lines 154-159: the listener runs on a daemon `threading.Thread` while the
main thread runs `curses.wrapper(render_scene)`.  Python thread semantics: an
uncaught exception inside a thread terminates only that thread; the main
thread, and with it the render loop, keeps running. -/
def run_main (tapCreated : Bool) : ProcessOutcome :=
  match start_mouse_listener tapCreated with
  | Except.ok _ =>
      { processAborted := false, renderLoopRuns := true, listenerAlive := true }
  | Except.error _ =>
      { processAborted := false, renderLoopRuns := true, listenerAlive := false }

/-- A write issued to the curses display. -/
inductive DisplayWrite where
  | str (row : Nat) (text : List Char)
  | ch (row col : Nat) (c : Char)
  deriving DecidableEq, Repr

/-- Lines 112-134: the ordered writes one frame issues given the anchors:
one `addstr(row, 0, line[:max_x])` per viewport row (line 124), then the
single crosshair `addch(max_y // 2, max_x // 2, "+")` (lines 129-132). -/
def frameWrites (scene : List (List Char)) (scene_height scene_width max_y max_x : Nat)
    (sy sx : ℤ) : List DisplayWrite :=
  ((List.range max_y).map fun (row : Nat) =>
    let actual_y := (pyMod (sy + (row : ℤ)) scene_height).toNat
    let line := extractLine (scene.getD actual_y []) scene_width sx.toNat max_x
    DisplayWrite.str row (line.take max_x))
  ++ [DisplayWrite.ch (max_y / 2) (max_x / 2) '+']

/-- The full per-frame display output as a function of the stored camera
offsets, anchors computed as on lines 109-110. -/
def frameDisplay (scene : List (List Char)) (scene_height scene_width max_y max_x : Nat)
    (c : CameraState) : List DisplayWrite :=
  frameWrites scene scene_height scene_width max_y max_x
    (visible_start_y c.vertical_offset scene_height)
    (visible_start_x c.scene_offset scene_width)

/-- The curses error raised by a write outside the addressable display area. -/
inductive CursesError where
  | err
  deriving DecidableEq, Repr

/-- A display write against a fault oracle: raises `curses.error` exactly when
the oracle marks this write faulty. -/
def displayOp (faulty : Bool) : Except CursesError Unit :=
  if faulty then Except.error CursesError.err else Except.ok ()

/-- The `try: ...; except curses.error: pass` guard of lines 123-126 and
131-134: swallows the fault and reports whether the write landed. -/
def tryExceptPass (op : Except CursesError Unit) : Except CursesError Bool :=
  match op with
  | Except.ok _ => Except.ok true
  | Except.error _ => Except.ok false

/-- The row-writing loop of lines 112-126: each row's `addstr` is guarded by
its own `try`/`except`, and the loop proceeds to the next row either way. -/
def writeRows (rowFault : Nat → Bool) : List Nat → Except CursesError (List Bool)
  | [] => Except.ok []
  | r :: rs => do
      let ok ← tryExceptPass (displayOp (rowFault r))
      let rest ← writeRows rowFault rs
      Except.ok (ok :: rest)

/-- Lines 112-134: one frame's guarded writes — all `max_y` rows, then the
guarded crosshair write.  Returns, per write, whether it landed. -/
def frameWriteOutcome (rowFault : Nat → Bool) (crossFault : Bool) (max_y : Nat) :
    Except CursesError (List Bool × Bool) := do
  let rows ← writeRows rowFault (List.range max_y)
  let cross ← tryExceptPass (displayOp crossFault)
  Except.ok (rows, cross)

/-- Claim C1: the claim requires the viewport anchor to be
`floor(horizontal_offset) mod W`, never derived from a truncating cast toward
zero.  At `horizontal_offset = -0.5` and scene width 10 the code's anchor
(line 109, `int()` truncating cast) is 0, while the floor-based anchor the
claim mandates is 9 — the code diverges from the claim. -/
theorem anchor_truncation_bug :
    visible_start_x (-(1/2) : ℚ) 10 = 0 ∧ spec_start_x (-(1/2) : ℚ) 10 = 9 := by
  constructor
  · have h : pyInt (-(1/2) : ℚ) = 0 := by
      simp only [pyInt]; rw [if_neg (by norm_num)]; norm_num
    simp only [visible_start_x, h]; decide
  · have h : (⌊(-(1/2) : ℚ)⌋ : ℤ) = -1 := by norm_num
    simp only [spec_start_x, h]; decide

/-- Claim C2: the claim requires the window extraction to produce exactly `w`
characters even when `w > W`, wrapping as many times as needed.  For a scene
row of width 10, anchor 9 and viewport width 12, the extraction of
lines 114-120 wraps only once and its second slice is clamped by the row
length, yielding 11 characters instead of the required 12. -/
theorem single_wrap_shortfall :
    (extractLine (List.replicate 10 ' ') 10 9 12).length = 11 := by decide

/-- Claim C3: the claim requires the drain to be one indivisible read-reset,
so that no sample is ever lost.  The code's drain is the separate read
(line 101) and reset (line 102); interleaving `accumulate(1, 0)` between them
erases the sample: after a further complete drain the total consumed dx is 0
and the buffer is empty, yet the total applied dx is 1. -/
theorem lost_update_interleaving :
    (samplerRun [SamplerOp.drainRead, SamplerOp.accumulate 1 0,
                 SamplerOp.drainReset, SamplerOp.drainRead,
                 SamplerOp.drainReset]).consumedx = 0 ∧
    (samplerRun [SamplerOp.drainRead, SamplerOp.accumulate 1 0,
                 SamplerOp.drainReset, SamplerOp.drainRead,
                 SamplerOp.drainReset]).appliedx = 1 ∧
    (samplerRun [SamplerOp.drainRead, SamplerOp.accumulate 1 0,
                 SamplerOp.drainReset, SamplerOp.drainRead,
                 SamplerOp.drainReset]).bufx = 0 := by decide

/-- Claim C4: the claim requires the process to abort at startup when the
event tap cannot be created.  The raise of line 62 happens inside a daemon
thread (line 155), which terminates only that thread: the process is not
aborted and the render loop still runs, with a dead listener (frozen
camera). -/
theorem tap_failure_no_abort :
    run_main false =
      { processAborted := false, renderLoopRuns := true, listenerAlive := false } := rfl

/-- Claim C5: scene width 20 (viewport width 5), starting offset 0.5, one
drained horizontal delta of `W / SCROLL_SPEED = 100` raw units in the
offset-decreasing direction.  The stored offset becomes -19.5; the code's
truncating anchor is then 1 instead of the original 0, and the rendered row
of `generate_scene` differs from the original frame's row — the round trip
is not bit-for-bit.  (Every float value involved — 0.5, 100 * 0.2 = 20.0,
-19.5 — is exact in IEEE doubles, so the rational model agrees with the
float execution here.) -/
theorem full_cycle_roundtrip_fails :
    visible_start_x (1/2 : ℚ) 20 = 0 ∧
    visible_start_x ((advanceCamera ⟨1/2, 0⟩ 100 0).scene_offset) 20 = 1 ∧
    extractLine ((generate_scene 20 33).getD 10 []) 20 1 5 ≠
      extractLine ((generate_scene 20 33).getD 10 []) 20 0 5 := by
  refine ⟨?_, ?_, by decide⟩
  · have h : pyInt (1/2 : ℚ) = 0 := by
      simp only [pyInt]; rw [if_pos (by norm_num)]; norm_num
    simp only [visible_start_x, h]; decide
  · have h : (advanceCamera ⟨1/2, 0⟩ 100 0).scene_offset = -39/2 := by
      simp only [advanceCamera, SCROLL_SPEED]; norm_num
    rw [h]
    have h2 : pyInt (-39/2 : ℚ) = -19 := by
      simp only [pyInt]; rw [if_neg (by norm_num)]; norm_num [Int.ceil_eq_iff]
    simp only [visible_start_x, h2]; decide

/-- Claim C6: for a scene row of width `W`, viewport width `w ≤ W`, and
anchor `start_x < W`, extraction at `start_x` and at `(start_x + W) mod W`
yield identical output. -/
theorem wrap_shift_invariant (row : List Char) (W w start_x : Nat)
    (hrow : row.length = W) (hw : w ≤ W) (hs : start_x < W) :
    extractLine row W start_x w = extractLine row W ((start_x + W) % W) w := by
  rw [Nat.add_mod_right, Nat.mod_eq_of_lt hs]

/-- Witness for claim C6 at a concrete row, width and anchor. -/
theorem wrap_shift_invariant_witness :
    extractLine ['a', 'b', 'c'] 3 1 2 = extractLine ['a', 'b', 'c'] 3 ((1 + 3) % 3) 2 :=
  wrap_shift_invariant ['a', 'b', 'c'] 3 2 1 (by decide) (by decide) (by decide)

/-- Claim C7: each frame's camera update is exactly
`horizontal_offset -= dx * 0.2` and `vertical_offset += dy * 0.2` with
`SCROLL_SPEED = 0.2`; the stored offsets are never clamped or wrapped (they
do not depend on the scene dimensions the modulo uses), and the modulo is
applied only to the sampled anchors, never written back. -/
theorem camera_update_exact (c : CameraState) (buf : ℤ × ℤ)
    (scene_width scene_height scene_width' scene_height' : Nat) :
    (frameCamera c buf scene_width scene_height).1.scene_offset
        = c.scene_offset - buf.1 * (0.2 : ℚ) ∧
    (frameCamera c buf scene_width scene_height).1.vertical_offset
        = c.vertical_offset + buf.2 * (0.2 : ℚ) ∧
    SCROLL_SPEED = (0.2 : ℚ) ∧
    (frameCamera c buf scene_width scene_height).1
        = (frameCamera c buf scene_width' scene_height').1 ∧
    (frameCamera c buf scene_width scene_height).2
        = (visible_start_x ((frameCamera c buf scene_width scene_height).1.scene_offset)
             scene_width,
           visible_start_y ((frameCamera c buf scene_width scene_height).1.vertical_offset)
             scene_height) := by
  refine ⟨?_, ?_, ?_, rfl, rfl⟩
  · simp only [frameCamera, advanceCamera, SCROLL_SPEED]
    norm_num
  · simp only [frameCamera, advanceCamera, SCROLL_SPEED]
    norm_num
  · simp only [SCROLL_SPEED]
    norm_num

/-- Claim C8: whatever the camera offsets (and whatever the scene), the
crosshair write of every frame is at the fixed viewport-space cell
`(max_y / 2, max_x / 2)` (integer division). -/
theorem crosshair_fixed (scene : List (List Char))
    (scene_height scene_width max_y max_x : Nat) (c : CameraState) :
    (frameDisplay scene scene_height scene_width max_y max_x c).getLast?
      = some (DisplayWrite.ch (max_y / 2) (max_x / 2) '+') := by
  simp [frameDisplay, frameWrites]

/-- The guarded row loop never escapes with an error, and records for each
row exactly whether its own write landed. -/
theorem writeRows_eq (rowFault : Nat → Bool) (rs : List Nat) :
    writeRows rowFault rs = Except.ok (rs.map fun r => !rowFault r) := by
  induction rs with
  | nil => rfl
  | cons r rs ih =>
      cases hfr : rowFault r <;>
        simp [writeRows, tryExceptPass, displayOp, hfr, ih] <;> rfl

/-- Claim C9: for every pattern of display write faults, the frame body
returns normally — no fault propagates out of the render-loop iteration —
and all `max_y` rows plus the crosshair are still attempted, each write's
fate depending only on its own fault, not on earlier failures. -/
theorem display_faults_contained (rowFault : Nat → Bool) (crossFault : Bool)
    (max_y : Nat) :
    frameWriteOutcome rowFault crossFault max_y
      = Except.ok ((List.range max_y).map fun r => !rowFault r, !crossFault) := by
  cases crossFault <;>
    simp [frameWriteOutcome, writeRows_eq, tryExceptPass, displayOp] <;> rfl

/-- Claim C10: when the window exactly reaches the right edge
(`start_x + w = W`), the strict-comparison wrap branch of lines 115-120
concatenates the slice `[start_x, W)` with the empty slice `[0, 0)`, which
equals the single contiguous slice `[start_x, start_x + w)` of the
non-wrapping branch. -/
theorem edge_flush_equals_contiguous (row : List Char) (W w start_x : Nat)
    (hedge : start_x + w = W) (hw : w ≤ W) :
    extractLine row W start_x w = pySlice row start_x (start_x + w) := by
  simp only [extractLine]
  rw [hedge]
  simp [pySlice]

/-- Witness for claim C10 at a concrete row, width and anchor. -/
theorem edge_flush_witness :
    extractLine ['a', 'b', 'c', 'd'] 4 1 3 = pySlice ['a', 'b', 'c', 'd'] 1 (1 + 3) :=
  edge_flush_equals_contiguous ['a', 'b', 'c', 'd'] 4 3 1 (by decide) (by decide)

end FaceFindr
